import Mathlib

/-!
Shallow embedding of `src/bindings/canvas_kit/tvgWasmCanvasKit.cpp`
(thorvg.web canvas-kit binding layer), covering:

* the process-wide WebGPU initialization state machine (`init`, `term`,
  the module-level globals `instance`, `adapter`, `device`,
  `adapterRequested`, `deviceRequested`, `initializationFailed`, and the
  asynchronous adapter/device completion callbacks), and
* the `ThorVGEngine` render-target manager (`createCanvas`, `resize`,
  `clear`, `render`, `size`, `getCanvas`, `getEngineType`).

Handles (pointers) are modelled as `Bool` (non-null flag) for the WebGPU
globals, whose nullness is all the code observes, and as `Nat` (0 = null
pointer, nonzero = pointer value) for the engine members, whose identity
the claims mention.  Fallible external allocations (`SwCanvas::gen`,
`malloc`, `emscripten_webgl_create_context`, `GlCanvas::gen`,
`wgpuInstanceCreateSurface`, `WgCanvas::gen`, `Initializer::init`) are
supplied by an environment record, so that every failure path of the
source is reachable in the model.  `uint32_t` multiplication
(`width * height * 4`) is taken modulo `2 ^ 32`.
-/

namespace ThorVGWeb

/-- The WebGPU module-level globals of `tvgWasmCanvasKit.cpp` (lines
43-48), together with two environment counters recording how many issued
`wgpuInstanceRequestAdapter` / `wgpuAdapterRequestDevice` asynchronous
requests have not yet delivered their completion callback.  The counters
are not program variables; they model the browser's in-flight requests,
which `term()` does not cancel. -/
structure WGState where
  instanceHandle : Bool
  adapterHandle : Bool
  deviceHandle : Bool
  adapterRequested : Bool
  deviceRequested : Bool
  initializationFailed : Bool
  adapterCallbacksInFlight : Nat
  deviceCallbacksInFlight : Nat
deriving DecidableEq, Repr

/-- The fresh process state: all globals zero-initialized, nothing in
flight. -/
def initialState : WGState :=
  { instanceHandle := false
    adapterHandle := false
    deviceHandle := false
    adapterRequested := false
    deviceRequested := false
    initializationFailed := false
    adapterCallbacksInFlight := 0
    deviceCallbacksInFlight := 0 }

/-- `static int init()` (lines 61-131), compiled with
`THORVG_WG_RASTER_SUPPORT`.  Returns the `int` result
(0 = ready, 1 = failed, 2 = pending) paired with the updated globals.
Issuing an asynchronous request increments the matching in-flight
counter. -/
def init (s : WGState) : Nat × WGState :=
  if s.initializationFailed then (1, s)
  else
    let s := if s.instanceHandle then s else { s with instanceHandle := true }
    if s.adapterHandle = false then
      if s.adapterRequested then (2, s)
      else
        (2, { s with adapterRequested := true
                     adapterCallbacksInFlight := s.adapterCallbacksInFlight + 1 })
    else if s.deviceRequested then
      (if s.deviceHandle then 0 else 2, s)
    else if s.deviceHandle = false then
      (2, { s with deviceRequested := true
                   deviceCallbacksInFlight := s.deviceCallbacksInFlight + 1 })
    else (0, s)

/-- `static void term()` (lines 134-146): releases and nulls the three
handles and clears the three booleans.  In-flight requests are not
cancelled, so the environment counters are untouched. -/
def term (s : WGState) : WGState :=
  { s with deviceHandle := false
           adapterHandle := false
           instanceHandle := false
           adapterRequested := false
           deviceRequested := false
           initializationFailed := false }

/-- The events the process can observe: a call to `init()`, a call to
`term()`, and delivery of an adapter / device completion callback with a
success or failure status. -/
inductive WGEvent where
  | initCall : WGEvent
  | termCall : WGEvent
  | adapterDone : Bool → WGEvent
  | deviceDone : Bool → WGEvent
deriving DecidableEq, Repr

/-- One event applied to the globals.  Callback deliveries follow
`onAdapterRequestEnded` / `onDeviceRequestEnded` (lines 74-82, 104-111):
on success they write the delivered handle through the `userdata`
pointer into the global, on failure they set `initializationFailed`.
A delivery with no request in flight is a no-op (there is no callback to
run). -/
def step (s : WGState) : WGEvent → WGState
  | .initCall => (init s).2
  | .termCall => term s
  | .adapterDone ok =>
    if s.adapterCallbacksInFlight = 0 then s
    else
      let s := { s with adapterCallbacksInFlight := s.adapterCallbacksInFlight - 1 }
      if ok then { s with adapterHandle := true }
      else { s with initializationFailed := true }
  | .deviceDone ok =>
    if s.deviceCallbacksInFlight = 0 then s
    else
      let s := { s with deviceCallbacksInFlight := s.deviceCallbacksInFlight - 1 }
      if ok then { s with deviceHandle := true }
      else { s with initializationFailed := true }

/-- Run a sequence of events from a state. -/
def run (s : WGState) : List WGEvent → WGState
  | [] => s
  | e :: es => run (step s e) es

/-- A trace is safe when `term()` is never called while an adapter or
device completion callback is still in flight. -/
def safeTrace (s : WGState) : List WGEvent → Bool
  | [] => true
  | e :: es =>
    (match e with
     | .termCall =>
       s.adapterCallbacksInFlight == 0 && s.deviceCallbacksInFlight == 0
     | _ => true) && safeTrace (step s e) es

/-- The handle-ordering invariant of the spec: adapter populated only
with the instance in hand, device populated only with the adapter in
hand. -/
def handleInv (s : WGState) : Prop :=
  (s.adapterHandle = true → s.instanceHandle = true) ∧
  (s.deviceHandle = true → s.adapterHandle = true)

/-- Strengthened inductive invariant for safe traces: the handle
ordering, plus what each in-flight callback may assume, plus bounds
tying the in-flight counters to the `*Requested` flags. -/
def Inv (s : WGState) : Prop :=
  (s.adapterCallbacksInFlight ≠ 0 → s.instanceHandle = true) ∧
  (s.adapterHandle = true → s.instanceHandle = true) ∧
  (s.deviceCallbacksInFlight ≠ 0 → s.adapterHandle = true) ∧
  (s.deviceHandle = true → s.adapterHandle = true) ∧
  (s.adapterRequested = false → s.adapterCallbacksInFlight = 0) ∧
  s.adapterCallbacksInFlight ≤ 1 ∧
  (s.adapterHandle = true → s.adapterCallbacksInFlight = 0) ∧
  (s.deviceRequested = false → s.deviceCallbacksInFlight = 0) ∧
  s.deviceCallbacksInFlight ≤ 1 ∧
  (s.deviceHandle = true → s.deviceCallbacksInFlight = 0)

/-- The `ThorVGEngine` members (lines 152-166).  Pointers are `Nat`
with 0 standing for `nullptr` (`gl_context` is already an integer in the
source; `canvas`, `buffer` and `surface` are pointers whose cast to
`uintptr_t` is the handle the binding returns). -/
structure ThorVGEngine where
  canvas : Nat
  buffer : Nat
  width : Nat
  height : Nat
  engine_type : String
  surface : Nat
  gl_context : Nat
deriving DecidableEq, Repr

/-- A freshly constructed `ThorVGEngine`: all members
default-initialized (null pointers, zero sizes, empty string). -/
def freshEngine : ThorVGEngine :=
  { canvas := 0, buffer := 0, width := 0, height := 0, engine_type := ""
    surface := 0, gl_context := 0 }

/-- Outcomes of the external fallible calls `createCanvas` makes, in
source order: `Initializer::init()` (true = `Result::Success`),
`SwCanvas::gen()`, `malloc(w*h*4)`, `emscripten_webgl_create_context`,
`GlCanvas::gen()`, `wgpuInstanceCreateSurface`, `WgCanvas::gen()`.
Pointer results use 0 for null/failure. -/
structure AllocOutcome where
  initSuccess : Bool
  swCanvasPtr : Nat
  bufferPtr : Nat
  glContextPtr : Nat
  glCanvasPtr : Nat
  wgSurfacePtr : Nat
  wgCanvasPtr : Nat
deriving DecidableEq, Repr

/-- `ThorVGEngine::createCanvas(engine, selector, w, h)` (lines
189-270).  `swSupport`, `glSupport`, `wgSupport` are the
`THORVG_SW_RASTER_SUPPORT` / `THORVG_GL_RASTER_SUPPORT` /
`THORVG_WG_RASTER_SUPPORT` build flags; when a flag is off the
corresponding branch of the source's if/else-if chain does not exist.
Returns the `uintptr_t` handle paired with the updated members.
`Text::load`, `target(...)` bindings and
`emscripten_webgl_make_context_current` mutate no member modelled
here. -/
def createCanvas (swSupport glSupport wgSupport : Bool) (a : AllocOutcome)
    (engine selector : String) (w h : Nat) (s : ThorVGEngine) :
    Nat × ThorVGEngine :=
  let s := { s with engine_type := engine, width := w, height := h }
  if a.initSuccess then
    if engine == "sw" then
      if swSupport then
        let s := { s with canvas := a.swCanvasPtr }
        if s.canvas = 0 then (0, s)
        else
          let s := { s with buffer := a.bufferPtr }
          if s.buffer = 0 then (0, { s with canvas := 0 })
          else (s.canvas, s)
      else (s.canvas, s)
    else if glSupport && engine == "gl" then
      let s := { s with gl_context := a.glContextPtr }
      if s.gl_context = 0 then (0, s)
      else
        let s := { s with canvas := a.glCanvasPtr }
        if s.canvas = 0 then (0, s)
        else (s.canvas, s)
    else if wgSupport && engine == "wg" then
      let s := { s with surface := a.wgSurfacePtr }
      if s.surface = 0 then (0, s)
      else
        let s := { s with canvas := a.wgCanvasPtr }
        if s.canvas = 0 then (0, s)
        else (s.canvas, s)
    else (s.canvas, s)
  else (0, s)

/-- `ThorVGEngine::resize(w, h)` (lines 273-308).  `mallocPtr` is the
outcome of the software branch's `malloc(w*h*4)` reallocation (0 =
null).  The GL/WG branches only re-issue `target(...)`, which mutates no
member modelled here, so the build flags for those backends are
irrelevant to the member state. -/
def resize (swSupport : Bool) (mallocPtr : Nat) (w h : Nat)
    (s : ThorVGEngine) : Bool × ThorVGEngine :=
  if s.canvas = 0 then (false, s)
  else if s.width = w ∧ s.height = h then (true, s)
  else
    let s := { s with width := w, height := h }
    if s.engine_type == "sw" then
      if swSupport then
        let s := { s with buffer := mallocPtr }
        if s.buffer = 0 then (false, s)
        else (true, s)
      else (true, s)
    else (true, s)

/-- `ThorVGEngine::clear()` (lines 311-315): `canvas->remove()` drops
the paints of the native canvas and touches no member modelled here. -/
def clear (s : ThorVGEngine) : Bool × ThorVGEngine :=
  if s.canvas = 0 then (false, s) else (true, s)

/-- `ThorVGEngine::render()` (lines 318-323): for a live buffer under
the software backend, the `typed_memory_view(width * height * 4,
buffer)` result is modelled as `some (byte-length, buffer pointer)`;
`val::undefined()` is `none`.  The length multiplication is `uint32_t`
arithmetic, hence the reduction modulo `2 ^ 32`. -/
def render (s : ThorVGEngine) : Option (Nat × Nat) :=
  if s.buffer ≠ 0 ∧ s.engine_type = "sw" then
    some (s.width * s.height * 4 % 2 ^ 32, s.buffer)
  else none

/-- `ThorVGEngine::size()` (lines 326-331) as the `(width, height)`
pair. -/
def size (s : ThorVGEngine) : Nat × Nat := (s.width, s.height)

/-- `ThorVGEngine::getCanvas()` (lines 334-336). -/
def getCanvas (s : ThorVGEngine) : Nat := s.canvas

/-- `ThorVGEngine::getEngineType()` (line 338). -/
def getEngineType (s : ThorVGEngine) : String := s.engine_type

/-- A concrete manager obtained by a successful software-backend
`createCanvas("sw", "#canvas", 800, 600)` on a fresh engine, with
`SwCanvas::gen()` returning pointer 5 and `malloc` pointer 7. -/
def swEngine800 : ThorVGEngine :=
  (createCanvas true false false
    { initSuccess := true, swCanvasPtr := 5, bufferPtr := 7
      glContextPtr := 0, glCanvasPtr := 0, wgSurfacePtr := 0
      wgCanvasPtr := 0 }
    "sw" "#canvas" 800 600 freshEngine).2


theorem Inv_initial : Inv initialState := by
  simp [Inv, initialState]

theorem Inv_step (s : WGState) (e : WGEvent) (hI : Inv s)
    (hsafe : e = WGEvent.termCall →
      s.adapterCallbacksInFlight = 0 ∧ s.deviceCallbacksInFlight = 0) :
    Inv (step s e) := by
  obtain ⟨h1, h2, h3, h4, h5, h6, h7, h8, h9, h10⟩ := hI
  cases e with
  | initCall =>
    simp only [step, init]
    split
    · exact ⟨h1, h2, h3, h4, h5, h6, h7, h8, h9, h10⟩
    · split <;> rename_i hinst
      all_goals (
        split <;> rename_i hadp
        · split
          · simp_all [Inv]
          · simp_all [Inv]
        · split
          · simp_all [Inv]
          · split
            · simp_all [Inv]
            · simp_all [Inv])
  | termCall =>
    have := hsafe rfl
    simp_all [step, term, Inv]
  | adapterDone ok =>
    simp only [step]
    split
    · exact ⟨h1, h2, h3, h4, h5, h6, h7, h8, h9, h10⟩
    · rename_i hnz
      cases ok <;> simp_all [Inv]
  | deviceDone ok =>
    simp only [step]
    split
    · exact ⟨h1, h2, h3, h4, h5, h6, h7, h8, h9, h10⟩
    · rename_i hnz
      cases ok <;> simp_all [Inv]

theorem Inv_run (es : List WGEvent) : ∀ s : WGState, Inv s →
    safeTrace s es = true → Inv (run s es) := by
  induction es with
  | nil => intro s hI _; exact hI
  | cons e es ih =>
    intro s hI hsafe
    simp only [safeTrace, Bool.and_eq_true] at hsafe
    refine ih (step s e) (Inv_step s e hI ?_) hsafe.2
    intro he
    subst he
    have := hsafe.1
    simp only [Bool.and_eq_true, beq_iff_eq] at this
    exact this

theorem init_adapter_issue (s : WGState) :
    (init s).2.adapterCallbacksInFlight ≠ s.adapterCallbacksInFlight →
    (init s).2.instanceHandle = true := by
  cases hf : s.initializationFailed <;> cases hi : s.instanceHandle <;>
    cases ha : s.adapterHandle <;> cases hr : s.adapterRequested <;>
    cases hd : s.deviceRequested <;> cases hv : s.deviceHandle <;>
    simp [init, hf, hi, ha, hr, hd, hv]

theorem init_device_issue (s : WGState) :
    (init s).2.deviceCallbacksInFlight ≠ s.deviceCallbacksInFlight →
    s.adapterHandle = true := by
  cases hf : s.initializationFailed <;> cases hi : s.instanceHandle <;>
    cases ha : s.adapterHandle <;> cases hr : s.adapterRequested <;>
    cases hd : s.deviceRequested <;> cases hv : s.deviceHandle <;>
    simp [init, hf, hi, ha, hr, hd, hv]

/-- C1 (amended): provided `term()` is never called while an adapter or
device request is still in flight, every state reachable from the fresh
WebGPU globals by `init()`/`term()` calls and completion-callback
deliveries satisfies the handle ordering (adapter non-null only if
instance non-null, device non-null only if adapter non-null); and,
unconditionally, `init()` issues the adapter request only with the
instance handle populated and the device request only with the adapter
handle populated. -/
theorem init_handle_ordering :
    (∀ es : List WGEvent, safeTrace initialState es = true →
      handleInv (run initialState es)) ∧
    (∀ s : WGState,
      ((init s).2.adapterCallbacksInFlight ≠ s.adapterCallbacksInFlight →
        (init s).2.instanceHandle = true) ∧
      ((init s).2.deviceCallbacksInFlight ≠ s.deviceCallbacksInFlight →
        s.adapterHandle = true)) := by
  constructor
  · intro es hsafe
    have h := Inv_run es initialState Inv_initial hsafe
    exact ⟨h.2.1, h.2.2.2.1⟩
  · intro s
    exact ⟨init_adapter_issue s, init_device_issue s⟩

/-- Witness for C1's amended theorem on the concrete happy-path trace. -/
theorem init_handle_ordering_witness :
    handleInv (run initialState
      [WGEvent.initCall, WGEvent.adapterDone true, WGEvent.initCall,
       WGEvent.deviceDone true]) :=
  init_handle_ordering.1
    [WGEvent.initCall, WGEvent.adapterDone true, WGEvent.initCall,
     WGEvent.deviceDone true] (by decide)

/-- C1 as literally stated is false: calling `term()` while the adapter
request is in flight and then delivering that request's success callback
leaves the adapter handle populated while the instance handle is null
(`term()` does not cancel in-flight requests, and the callback writes
through a pointer to the global). -/
theorem init_handle_ordering_counterexample :
    (run initialState
      [WGEvent.initCall, WGEvent.termCall,
       WGEvent.adapterDone true]).adapterHandle = true ∧
    (run initialState
      [WGEvent.initCall, WGEvent.termCall,
       WGEvent.adapterDone true]).instanceHandle = false := by
  decide

theorem step_failed_sticky (s : WGState) (e : WGEvent)
    (hne : e ≠ WGEvent.termCall) (hf : s.initializationFailed = true) :
    (step s e).initializationFailed = true := by
  cases e with
  | initCall => simp [step, init, hf]
  | termCall => exact absurd rfl hne
  | adapterDone ok =>
    simp only [step]
    split
    · exact hf
    · cases ok <;> simp_all
  | deviceDone ok =>
    simp only [step]
    split
    · exact hf
    · cases ok <;> simp_all

theorem run_failed_sticky (es : List WGEvent) : ∀ s : WGState,
    (∀ e ∈ es, e ≠ WGEvent.termCall) → s.initializationFailed = true →
    (run s es).initializationFailed = true := by
  induction es with
  | nil => intro s _ hf; exact hf
  | cons e es ih =>
    intro s hne hf
    exact ih (step s e) (fun x hx => hne x (List.mem_cons_of_mem e hx))
      (step_failed_sticky s e (hne e (List.mem_cons_self e es)) hf)

theorem init_one_iff (s : WGState) :
    (init s).1 = 1 ↔ s.initializationFailed = true := by
  cases hf : s.initializationFailed <;> cases hi : s.instanceHandle <;>
    cases ha : s.adapterHandle <;> cases hr : s.adapterRequested <;>
    cases hd : s.deviceRequested <;> cases hv : s.deviceHandle <;>
    simp [init, hf, hi, ha, hr, hd, hv]

theorem init_zero (s : WGState) (h : (init s).1 = 0) :
    s.initializationFailed = false ∧ s.adapterHandle = true ∧
    s.deviceHandle = true := by
  cases hf : s.initializationFailed <;> cases hi : s.instanceHandle <;>
    cases ha : s.adapterHandle <;> cases hr : s.adapterRequested <;>
    cases hd : s.deviceRequested <;> cases hv : s.deviceHandle <;>
    simp_all [init]

theorem step_ready_fix (s : WGState) (e : WGEvent)
    (hne : e ≠ WGEvent.termCall) (hf : s.initializationFailed = false)
    (hi : s.instanceHandle = true) (ha : s.adapterHandle = true)
    (hv : s.deviceHandle = true) (hac : s.adapterCallbacksInFlight = 0)
    (hdc : s.deviceCallbacksInFlight = 0) : step s e = s := by
  cases e with
  | initCall =>
    cases hd : s.deviceRequested <;> simp [step, init, hf, hi, ha, hv, hd]
  | termCall => exact absurd rfl hne
  | adapterDone ok => simp [step, hac]
  | deviceDone ok => simp [step, hdc]

theorem run_ready_fix (es : List WGEvent) : ∀ s : WGState,
    (∀ e ∈ es, e ≠ WGEvent.termCall) → s.initializationFailed = false →
    s.instanceHandle = true → s.adapterHandle = true →
    s.deviceHandle = true → s.adapterCallbacksInFlight = 0 →
    s.deviceCallbacksInFlight = 0 → run s es = s := by
  induction es with
  | nil => intro s _ _ _ _ _ _ _; rfl
  | cons e es ih =>
    intro s hne hf hi ha hv hac hdc
    have hstep : step s e = s :=
      step_ready_fix s e (hne e (List.mem_cons_self e es)) hf hi ha hv hac hdc
    simp only [run, hstep]
    exact ih s (fun x hx => hne x (List.mem_cons_of_mem e hx)) hf hi ha hv hac hdc

theorem run_append (es1 es2 : List WGEvent) : ∀ s : WGState,
    run s (es1 ++ es2) = run (run s es1) es2 := by
  induction es1 with
  | nil => intro s; rfl
  | cons e es ih => intro s; simp only [List.cons_append, run]; exact ih (step s e)

theorem safeTrace_append (es1 es2 : List WGEvent) : ∀ s : WGState,
    safeTrace s (es1 ++ es2) = true →
    safeTrace s es1 = true ∧ safeTrace (run s es1) es2 = true := by
  induction es1 with
  | nil => intro s h; exact ⟨rfl, h⟩
  | cons e es ih =>
    intro s h
    simp only [List.cons_append, safeTrace, Bool.and_eq_true] at h ⊢
    obtain ⟨hg, hrest⟩ := h
    obtain ⟨h1, h2⟩ := ih (step s e) hrest
    exact ⟨⟨hg, h1⟩, h2⟩

/-- C2 (amended): provided `term()` is never called while a request is
in flight, once `init()` has returned 0 (Ready) or 1 (Failed), every
subsequent `init()` call with no intervening `term()` returns that same
value, whatever completion callbacks are delivered in between. -/
theorem init_terminal_sticky (es1 es2 : List WGEvent) (r : Nat)
    (hsafe : safeTrace initialState (es1 ++ es2) = true)
    (hnoterm : ∀ e ∈ es2, e ≠ WGEvent.termCall)
    (hr : (init (run initialState es1)).1 = r) (hterm : r = 0 ∨ r = 1) :
    (init (run initialState (es1 ++ es2))).1 = r := by
  obtain ⟨hs1, hs2⟩ := safeTrace_append es1 es2 initialState hsafe
  rw [run_append]
  have hInv : Inv (run initialState es1) :=
    Inv_run es1 initialState Inv_initial hs1
  obtain ⟨i1, i2, i3, i4, i5, i6, i7, i8, i9, i10⟩ := hInv
  rcases hterm with h0 | h1
  · subst h0
    obtain ⟨hf, ha, hv⟩ := init_zero _ hr
    rw [run_ready_fix es2 _ hnoterm hf (i2 ha) ha hv (i7 ha) (i10 hv)]
    exact hr
  · subst h1
    exact (init_one_iff _).2
      (run_failed_sticky es2 _ hnoterm ((init_one_iff _).1 hr))

/-- Witness for C2's amended theorem: a failed adapter negotiation makes
`init()` return 1, and it still returns 1 after a further `init()`
call. -/
theorem init_terminal_sticky_witness :
    (init (run initialState
      ([WGEvent.initCall, WGEvent.adapterDone false] ++
       [WGEvent.initCall]))).1 = 1 :=
  init_terminal_sticky [WGEvent.initCall, WGEvent.adapterDone false]
    [WGEvent.initCall] 1 (by decide) (by decide) (by decide) (Or.inr rfl)

/-- C2 as literally stated is false: calling `term()` while the first
adapter request is in flight and re-running `init()` leaves a stale
adapter callback pending; after `init()` has returned 0 (Ready), the
stale callback's failure delivery flips `initializationFailed`, and the
next `init()` with no intervening `term()` returns 1. -/
theorem init_terminal_sticky_counterexample :
    (init (run initialState
      [WGEvent.initCall, WGEvent.termCall, WGEvent.initCall,
       WGEvent.adapterDone true, WGEvent.initCall,
       WGEvent.deviceDone true])).1 = 0 ∧
    (init (run initialState
      [WGEvent.initCall, WGEvent.termCall, WGEvent.initCall,
       WGEvent.adapterDone true, WGEvent.initCall, WGEvent.deviceDone true,
       WGEvent.adapterDone false])).1 = 1 ∧
    (WGEvent.adapterDone false ≠ WGEvent.termCall) := by
  exact ⟨by decide, by decide, by decide⟩

/-- C3: after any `term()` the six WebGPU globals equal their fresh
values (handles null, booleans false); `term()` is idempotent and fixes
the fresh state. -/
theorem term_resets (s : WGState) :
    (term s).deviceHandle = false ∧ (term s).adapterHandle = false ∧
    (term s).instanceHandle = false ∧ (term s).adapterRequested = false ∧
    (term s).deviceRequested = false ∧
    (term s).initializationFailed = false ∧
    term (term s) = term s ∧ term initialState = initialState :=
  ⟨rfl, rfl, rfl, rfl, rfl, rfl, rfl, rfl⟩

/-- C4 as stated is false: on a software-backend manager at 800x600, a
resize to 1024x768 whose pixel-buffer reallocation returns null returns
false, yet the recorded dimensions are the new 1024x768, not the
previous 800x600 — `resize` assigns `width`/`height` before attempting
the reallocation. -/
theorem resize_failure_dims_counterexample :
    swEngine800.width = 800 ∧ swEngine800.height = 600 ∧
    (resize true 0 1024 768 swEngine800).1 = false ∧
    (resize true 0 1024 768 swEngine800).2.width = 1024 ∧
    (resize true 0 1024 768 swEngine800).2.height = 768 := by
  decide

/-- C4 (corrected): on a software-backend manager, a resize to different
dimensions whose buffer reallocation returns null returns false, with
the recorded width and height already updated to the requested values
(they are assigned before the reallocation is attempted) and the buffer
left null. -/
theorem resize_failure_updates_dims (s : ThorVGEngine) (w h : Nat)
    (hc : s.canvas ≠ 0) (hne : ¬(s.width = w ∧ s.height = h))
    (ht : s.engine_type = "sw") :
    (resize true 0 w h s).1 = false ∧
    (resize true 0 w h s).2.width = w ∧
    (resize true 0 w h s).2.height = h ∧
    (resize true 0 w h s).2.buffer = 0 := by
  simp [resize, hc, hne, ht]

/-- Witness for C4's amended theorem at the concrete 800x600 manager. -/
theorem resize_failure_updates_dims_witness :
    (resize true 0 1024 768 swEngine800).1 = false ∧
    (resize true 0 1024 768 swEngine800).2.width = 1024 ∧
    (resize true 0 1024 768 swEngine800).2.height = 768 ∧
    (resize true 0 1024 768 swEngine800).2.buffer = 0 :=
  resize_failure_updates_dims swEngine800 1024 768 (by decide) (by decide)
    (by decide)

/-- C5: for backend "sw" with the software rasterizer compiled in, if
the canvas object was created but the `w*h*4` pixel-buffer `malloc`
fails, `createCanvas` resets the canvas to null and returns 0, leaving
no canvas and no buffer; if the canvas allocation itself fails it
returns 0 with a null canvas and no buffer allocated (the buffer member
is untouched). -/
theorem createCanvas_sw_alloc_failure (glS wgS : Bool) (a : AllocOutcome)
    (sel : String) (w h : Nat) (s : ThorVGEngine)
    (hinit : a.initSuccess = true) :
    (a.swCanvasPtr ≠ 0 → a.bufferPtr = 0 →
      (createCanvas true glS wgS a "sw" sel w h s).1 = 0 ∧
      (createCanvas true glS wgS a "sw" sel w h s).2.canvas = 0 ∧
      (createCanvas true glS wgS a "sw" sel w h s).2.buffer = 0) ∧
    (a.swCanvasPtr = 0 →
      (createCanvas true glS wgS a "sw" sel w h s).1 = 0 ∧
      (createCanvas true glS wgS a "sw" sel w h s).2.canvas = 0 ∧
      (createCanvas true glS wgS a "sw" sel w h s).2.buffer = s.buffer) := by
  constructor
  · intro hc hb
    simp [createCanvas, hinit, hc, hb]
  · intro hc
    simp [createCanvas, hinit, hc]

/-- Witness for C5 at a concrete failing malloc. -/
theorem createCanvas_sw_alloc_failure_witness :
    (createCanvas true false false
      { initSuccess := true, swCanvasPtr := 5, bufferPtr := 0
        glContextPtr := 0, glCanvasPtr := 0, wgSurfacePtr := 0
        wgCanvasPtr := 0 } "sw" "#c" 800 600 freshEngine).1 = 0 ∧
    (createCanvas true false false
      { initSuccess := true, swCanvasPtr := 5, bufferPtr := 0
        glContextPtr := 0, glCanvasPtr := 0, wgSurfacePtr := 0
        wgCanvasPtr := 0 } "sw" "#c" 800 600 freshEngine).2.canvas = 0 ∧
    (createCanvas true false false
      { initSuccess := true, swCanvasPtr := 5, bufferPtr := 0
        glContextPtr := 0, glCanvasPtr := 0, wgSurfacePtr := 0
        wgCanvasPtr := 0 } "sw" "#c" 800 600 freshEngine).2.buffer = 0 :=
  (createCanvas_sw_alloc_failure false false
    { initSuccess := true, swCanvasPtr := 5, bufferPtr := 0
      glContextPtr := 0, glCanvasPtr := 0, wgSurfacePtr := 0
      wgCanvasPtr := 0 } "#c" 800 600 freshEngine rfl).1
    (by decide) rfl

/-- C6: `render()` yields a view of exactly `width*height*4` bytes over
the live pixel buffer iff the recorded backend tag is "sw" and the
buffer is non-null; in every other case it returns undefined.  The
hypothesis keeps the `uint32_t` byte-length multiplication from
wrapping. -/
theorem render_sw_buffer_view (s : ThorVGEngine)
    (hfit : s.width * s.height * 4 < 2 ^ 32) :
    (render s = some (s.width * s.height * 4, s.buffer) ↔
      (s.engine_type = "sw" ∧ s.buffer ≠ 0)) ∧
    (¬(s.engine_type = "sw" ∧ s.buffer ≠ 0) → render s = none) := by
  constructor
  · constructor
    · intro h
      by_cases hc : s.buffer ≠ 0 ∧ s.engine_type = "sw"
      · exact ⟨hc.2, hc.1⟩
      · simp [render, hc] at h
    · rintro ⟨ht, hb⟩
      norm_num at hfit
      simp [render, ht, hb, Nat.mod_eq_of_lt hfit]
  · intro hc
    have hns : ¬(s.buffer ≠ 0 ∧ s.engine_type = "sw") := fun h => hc ⟨h.2, h.1⟩
    simp [render, hns]

/-- Witness for C6 at the concrete 800x600 software manager. -/
theorem render_sw_buffer_view_witness :
    render swEngine800 =
      some (swEngine800.width * swEngine800.height * 4, swEngine800.buffer) :=
  (render_sw_buffer_view swEngine800 (by decide)).1.2 ⟨by decide, by decide⟩

/-- C7: on a manager with a created target, `resize` at the currently
recorded dimensions returns true and performs no work — the whole member
state (canvas handle, buffer pointer, recorded width and height)
is unchanged, whatever the reallocation would have produced. -/
theorem resize_same_dims_noop (swS : Bool) (m : Nat) (s : ThorVGEngine)
    (hc : s.canvas ≠ 0) :
    resize swS m s.width s.height s = (true, s) := by
  simp [resize, hc]

/-- Witness for C7 at the concrete 800x600 software manager. -/
theorem resize_same_dims_noop_witness :
    resize true 0 swEngine800.width swEngine800.height swEngine800 =
      (true, swEngine800) :=
  resize_same_dims_noop true 0 swEngine800 (by decide)

/-- C8: `clear()` returns false iff no target has been created (canvas
null); it never changes the members, so `size()` and the pixel buffer
are untouched. -/
theorem clear_iff_canvas (s : ThorVGEngine) :
    ((clear s).1 = false ↔ s.canvas = 0) ∧ (clear s).2 = s ∧
    size (clear s).2 = size s := by
  by_cases hc : s.canvas = 0 <;> simp [clear, hc]

/-- C9: for a backend string matching no compiled-in branch (unknown
name, or a known name whose backend is compiled out), `createCanvas` on
a manager holding no resources returns handle 0 and leaves canvas,
buffer, GL context and GPU surface all null. -/
theorem createCanvas_unknown_backend (swS glS wgS : Bool)
    (a : AllocOutcome) (engine sel : String) (w h : Nat) (s : ThorVGEngine)
    (hcv : s.canvas = 0) (hbf : s.buffer = 0) (hgl : s.gl_context = 0)
    (hsf : s.surface = 0)
    (hun : ¬((engine = "sw" ∧ swS = true) ∨ (engine = "gl" ∧ glS = true) ∨
             (engine = "wg" ∧ wgS = true))) :
    (createCanvas swS glS wgS a engine sel w h s).1 = 0 ∧
    (createCanvas swS glS wgS a engine sel w h s).2.canvas = 0 ∧
    (createCanvas swS glS wgS a engine sel w h s).2.buffer = 0 ∧
    (createCanvas swS glS wgS a engine sel w h s).2.gl_context = 0 ∧
    (createCanvas swS glS wgS a engine sel w h s).2.surface = 0 := by
  by_cases hi : a.initSuccess = true
  · by_cases h1 : engine = "sw"
    · have hs : swS = false := by
        cases hb : swS
        · rfl
        · exact absurd (Or.inl ⟨h1, hb⟩) hun
      simp [createCanvas, beq_iff_eq, hi, h1, hs, hcv, hbf, hgl, hsf]
    · by_cases h2 : engine = "gl"
      · have hg : glS = false := by
          cases hb : glS
          · rfl
          · exact absurd (Or.inr (Or.inl ⟨h2, hb⟩)) hun
        simp [createCanvas, beq_iff_eq, hi, h1, h2, hg, hcv, hbf, hgl, hsf]
      · by_cases h3 : engine = "wg"
        · have hw : wgS = false := by
            cases hb : wgS
            · rfl
            · exact absurd (Or.inr (Or.inr ⟨h3, hb⟩)) hun
          simp [createCanvas, beq_iff_eq, hi, h1, h2, h3, hw, hcv, hbf,
            hgl, hsf]
        · simp [createCanvas, beq_iff_eq, hi, h1, h2, h3, hcv, hbf, hgl, hsf]
  · simp [createCanvas, hi, hcv, hbf, hgl, hsf]

/-- Witness for C9 at the backend name "xyz" with all backends compiled
in and all allocations able to succeed. -/
theorem createCanvas_unknown_backend_witness :
    (createCanvas true true true
      { initSuccess := true, swCanvasPtr := 5, bufferPtr := 7
        glContextPtr := 9, glCanvasPtr := 11, wgSurfacePtr := 13
        wgCanvasPtr := 15 } "xyz" "#c" 800 600 freshEngine).1 = 0 ∧
    (createCanvas true true true
      { initSuccess := true, swCanvasPtr := 5, bufferPtr := 7
        glContextPtr := 9, glCanvasPtr := 11, wgSurfacePtr := 13
        wgCanvasPtr := 15 } "xyz" "#c" 800 600 freshEngine).2.canvas = 0 ∧
    (createCanvas true true true
      { initSuccess := true, swCanvasPtr := 5, bufferPtr := 7
        glContextPtr := 9, glCanvasPtr := 11, wgSurfacePtr := 13
        wgCanvasPtr := 15 } "xyz" "#c" 800 600 freshEngine).2.buffer = 0 ∧
    (createCanvas true true true
      { initSuccess := true, swCanvasPtr := 5, bufferPtr := 7
        glContextPtr := 9, glCanvasPtr := 11, wgSurfacePtr := 13
        wgCanvasPtr := 15 } "xyz" "#c" 800 600 freshEngine).2.gl_context
      = 0 ∧
    (createCanvas true true true
      { initSuccess := true, swCanvasPtr := 5, bufferPtr := 7
        glContextPtr := 9, glCanvasPtr := 11, wgSurfacePtr := 13
        wgCanvasPtr := 15 } "xyz" "#c" 800 600 freshEngine).2.surface = 0 :=
  createCanvas_unknown_backend true true true
    { initSuccess := true, swCanvasPtr := 5, bufferPtr := 7
      glContextPtr := 9, glCanvasPtr := 11, wgSurfacePtr := 13
      wgCanvasPtr := 15 } "xyz" "#c" 800 600 freshEngine rfl rfl rfl rfl
    (by decide)

/-- C10: `createCanvas` records the requested backend string, width and
height before any validity check or allocation, so even when it fails
`getEngineType` returns the requested backend and `size` reports the
requested dimensions. -/
theorem createCanvas_records_request (swS glS wgS : Bool)
    (a : AllocOutcome) (engine sel : String) (w h : Nat)
    (s : ThorVGEngine) :
    getEngineType (createCanvas swS glS wgS a engine sel w h s).2 =
      engine ∧
    size (createCanvas swS glS wgS a engine sel w h s).2 = (w, h) := by
  simp only [createCanvas, getEngineType, size]
  split_ifs <;> simp

end ThorVGWeb
